import Mathlib

/-!
Verification of the ComfyUI mesh-simplifier node (`comfyui_mesh_simplifier.py`).

The repository is a thin driver around an external mesh-processing library:
it computes a target face count, optionally runs a cleanup pass, invokes the
decimation filter (texture-aware or geometry-only), runs an edge-flip
post-pass, and manages two temporary interchange files.  The driver's control
flow and arithmetic are embedded below directly from the source; the external
library's filters, which are not part of this repository, are modelled from
the specification (each such definition is marked `Modelled from the spec`).
-/

namespace MeshSimplifier

/-- Abstract state of the mesh held by the external library's mesh set.
Counts and defect counters stand for the concrete buffers; `texDistortion`
records the texture-weighted error accumulated by the texture-aware filter,
and `flipPasses` records edge-flip iterations applied (flips change
connectivity, never counts). -/
structure MLMesh where
  nverts : Nat
  nfaces : Nat
  /-- number of vertex pairs lying within the merge epsilon -/
  closePairs : Nat
  /-- number of vertices referenced by no face -/
  unrefVerts : Nat
  /-- number of exact duplicate faces -/
  dupFaces : Nat
  /-- whether the host mesh carries texture coordinates (`vt`/`ft` present) -/
  hasTex : Bool
  /-- whether the texture indices are corrupt, making the texture-aware
  quadric solve fail (spec: `DegenerateQuadricError`) -/
  texCorrupt : Bool
  /-- whether the interchange file is malformed (spec: `FormatError`) -/
  malformed : Bool
  texDistortion : ℚ
  flipPasses : Nat
deriving DecidableEq, Repr

/-- Names of the library filters the driver applies, with the arguments the
driver computes; used to record the trace of filter invocations. -/
inductive FilterOp where
  | mergeCloseVertices
  | removeUnreferencedVertices
  | removeDuplicateFaces
  | decimateWithTexture (targetfacenum : Int)
  | decimateStandard (targetfacenum : Int)
  | edgeFlipPlanar (iterations : Nat)
deriving DecidableEq, Repr

/-- Modelled from the spec: the cleanup filter that merges vertices within an
epsilon distance (`meshing_merge_close_vertices`). -/
def mergeCloseVertices (m : MLMesh) : MLMesh :=
  { m with nverts := m.nverts - m.closePairs, closePairs := 0 }

/-- Modelled from the spec: the cleanup filter that drops unreferenced
vertices (`meshing_remove_unreferenced_vertices`). -/
def removeUnreferencedVertices (m : MLMesh) : MLMesh :=
  { m with nverts := m.nverts - m.unrefVerts, unrefVerts := 0 }

/-- Modelled from the spec: the cleanup filter that removes exact duplicate
faces (`meshing_remove_duplicate_faces`). -/
def removeDuplicateFaces (m : MLMesh) : MLMesh :=
  { m with nfaces := m.nfaces - m.dupFaces, dupFaces := 0 }

/-- The three cleanup filters in the order the driver applies them
(source lines 229-235 and 339-345). -/
def cleanMesh (m : MLMesh) : MLMesh :=
  removeDuplicateFaces (removeUnreferencedVertices (mergeCloseVertices m))

/-- The trace of the cleanup filters, in driver order. -/
def cleanOps : List FilterOp :=
  [FilterOp.mergeCloseVertices, FilterOp.removeUnreferencedVertices,
   FilterOp.removeDuplicateFaces]

/-- Modelled from the spec: geometry-only quadric edge collapse decimation
(`meshing_decimation_quadric_edge_collapse`).  The collapse loop terminates
when the live face count reaches the target; each collapse merges two
vertices and removes about two faces.  Quality, boundary, placement and
planarity parameters steer which collapses are chosen and are abstracted
away from the counts. -/
def decimation (m : MLMesh) (target : Int) : MLMesh :=
  let newFaces := min m.nfaces target.toNat
  { m with nfaces := newFaces, nverts := m.nverts - (m.nfaces - newFaces) / 2 }

/-- Modelled from the spec: texture-aware quadric edge collapse decimation
(`meshing_decimation_quadric_edge_collapse_with_texture`).  It adds a
secondary quadric scaled by the texture weight; corrupt texture indices make
the quadric solve raise (spec: `DegenerateQuadricError`), which the driver
catches. -/
def decimationWithTexture (m : MLMesh) (target : Int) (texW : ℚ) :
    Except Unit MLMesh :=
  if m.texCorrupt then Except.error ()
  else Except.ok
    { decimation m target with texDistortion := m.texDistortion + texW * m.nfaces }

/-- Modelled from the spec: the planar edge-flip post-pass
(`meshing_edge_flip_by_planar_optimization`), evaluating a planar-area-ratio
heuristic for the given number of iterations.  Flipping a shared edge changes
face connectivity only: vertex and face counts are untouched. -/
def edgeFlipPlanar (m : MLMesh) (iterations : Nat) : MLMesh :=
  { m with flipPasses := m.flipPasses + iterations }

/-- Python `int()` on a rational: truncation toward zero. -/
def pyInt (q : ℚ) : Int :=
  if q < 0 then Int.ceil q else Int.floor q

/-- The target-face-count calculation of the source (lines 254-261 and
364-371), an exact restructuring of the `if`/`elif`/`else` chain:
a positive `target_faces` wins; otherwise a `percentage_reduction` in the
closed interval `[0, 1]` gives `int(current_faces * (1.0 - r))`; otherwise
`int(target_faces)` when `target_faces` is set, else the default `1000`. -/
def computedTarget (target_faces : Option Int) (percentage_reduction : Option ℚ)
    (current_faces : Nat) : Int :=
  match target_faces with
  | some t =>
    if 0 < t then t
    else
      match percentage_reduction with
      | some r =>
        if 0 ≤ r ∧ r ≤ 1 then pyInt ((current_faces : ℚ) * (1 - r)) else t
      | none => t
  | none =>
    match percentage_reduction with
    | some r =>
      if 0 ≤ r ∧ r ≤ 1 then pyInt ((current_faces : ℚ) * (1 - r)) else 1000
    | none => 1000

/-- The effective target passed to the decimation filter: the computed target
clamped to the hard floor of 4 faces (source lines 264 and 374). -/
def targetfacenum (target_faces : Option Int) (percentage_reduction : Option ℚ)
    (current_faces : Nat) : Int :=
  max 4 (computedTarget target_faces percentage_reduction current_faces)

/-- Embedding of `_simplify_without_texture` (source lines 316-403): load the
mesh, optionally clean it, compute the target from the possibly-cleaned face
count, apply the standard decimation filter, then the edge-flip post-pass
with 2 iterations.  Returns the final mesh together with the trace of filter
invocations.  The quality, boundary, placement, normal and planarity
parameters are forwarded to the decimation filter, whose count model
abstracts them away. -/
def simplifyWithoutTexture (inputMesh : MLMesh) (target_faces : Option Int)
    (percentage_reduction : Option ℚ) (_quality_threshold : ℚ)
    (_preserve_boundary : Bool) (_boundary_weight : ℚ) (_optimal_position : Bool)
    (_preserve_normal : Bool) (_planar_simplification : Bool) (pre_clean : Bool) :
    MLMesh × List FilterOp :=
  let m1 := if pre_clean then cleanMesh inputMesh else inputMesh
  let t := targetfacenum target_faces percentage_reduction m1.nfaces
  let m2 := decimation m1 t
  let m3 := edgeFlipPlanar m2 2
  (m3, (if pre_clean then cleanOps else []) ++
       [FilterOp.decimateStandard t, FilterOp.edgeFlipPlanar 2])

/-- Embedding of `_simplify_with_texture` (source lines 206-314): load the
mesh, optionally clean it, compute the target from the possibly-cleaned face
count, try the texture-aware decimation filter followed by the edge-flip
post-pass; if the texture filter raises, fall back to
`_simplify_without_texture` on the ORIGINAL input path (the file holds the
un-cleaned mesh: the cleaned state lives only in the in-memory mesh set)
with `pre_clean=False` (source lines 286-304). -/
def simplifyWithTexture (inputMesh : MLMesh) (target_faces : Option Int)
    (percentage_reduction : Option ℚ) (quality_threshold : ℚ)
    (texture_weight : ℚ) (preserve_boundary : Bool) (boundary_weight : ℚ)
    (optimal_position : Bool) (preserve_normal : Bool)
    (planar_simplification : Bool) (pre_clean : Bool) :
    MLMesh × List FilterOp :=
  let m1 := if pre_clean then cleanMesh inputMesh else inputMesh
  let t := targetfacenum target_faces percentage_reduction m1.nfaces
  match decimationWithTexture m1 t texture_weight with
  | Except.ok m2 =>
    let m3 := edgeFlipPlanar m2 2
    (m3, (if pre_clean then cleanOps else []) ++
         [FilterOp.decimateWithTexture t, FilterOp.edgeFlipPlanar 2])
  | Except.error _ =>
    let fb := simplifyWithoutTexture inputMesh target_faces percentage_reduction
      quality_threshold preserve_boundary boundary_weight optimal_position
      preserve_normal planar_simplification false
    (fb.1, (if pre_clean then cleanOps else []) ++
           [FilterOp.decimateWithTexture t] ++ fb.2)

/-- The two target-mode selectors of `simplify_mesh` (source lines 106-112):
choosing one mode sets the other to `None`. -/
inductive SimplifyMethod where
  | targetFaces
  | percentageReduction
deriving DecidableEq, Repr

/-- Parameter record of the node, mirroring the `simplify_mesh` signature
after the string booleans are converted (source lines 86-104).  Floats are
modelled as rationals. -/
structure Params where
  simplify_method : SimplifyMethod
  target_faces : Int
  percentage_reduction : ℚ
  quality_threshold : ℚ
  texture_weight : ℚ
  preserve_boundary : Bool
  boundary_weight : ℚ
  optimal_position : Bool
  preserve_normal : Bool
  planar_simplification : Bool
  pre_clean : Bool
deriving DecidableEq, Repr

/-- Source lines 106-112: the selected mode keeps its value, the other
becomes `None`. -/
def setTargets (method : SimplifyMethod) (target_faces : Int)
    (percentage_reduction : ℚ) : Option Int × Option ℚ :=
  match method with
  | SimplifyMethod.targetFaces => (some target_faces, none)
  | SimplifyMethod.percentageReduction => (none, some percentage_reduction)

/-- Fatal errors surfaced by a run (spec taxonomy): a malformed interchange
file aborts the session. -/
inductive PyErr where
  | formatError
deriving DecidableEq, Repr

/-- Embedding of `simplify_mesh` (source lines 86-204).  The file system is a
list of file names; the run creates the two temporary interchange files,
runs the body (which fails on a malformed mesh and otherwise dispatches on
`has_texture`), and the `finally` block removes both temporary files whether
the body returned or raised.  `startTime` models the wall clock, read only
for the timing log.  Returns the body's outcome (simplified mesh and filter
trace, or the fatal error) together with the resulting file system. -/
def simplifyMesh (mesh : MLMesh) (p : Params) (fs : List Nat)
    (inputObj outputObj : Nat) (_startTime : Nat) :
    Except PyErr (MLMesh × List FilterOp) × List Nat :=
  let sel := setTargets p.simplify_method p.target_faces p.percentage_reduction
  let fs1 := fs ++ [inputObj, outputObj]
  let body : Except PyErr (MLMesh × List FilterOp) :=
    if mesh.malformed then Except.error PyErr.formatError
    else if mesh.hasTex then
      Except.ok (simplifyWithTexture mesh sel.1 sel.2 p.quality_threshold
        p.texture_weight p.preserve_boundary p.boundary_weight
        p.optimal_position p.preserve_normal p.planar_simplification
        p.pre_clean)
    else
      Except.ok (simplifyWithoutTexture mesh sel.1 sel.2 p.quality_threshold
        p.preserve_boundary p.boundary_weight p.optimal_position
        p.preserve_normal p.planar_simplification p.pre_clean)
  let fs2 := (fs1.filter (· ≠ inputObj)).filter (· ≠ outputObj)
  (body, fs2)

/-! Concrete meshes used to evaluate the embedding. -/

/-- A textured mesh with 10 duplicate faces whose corrupt texture indices
make the texture-aware filter raise. -/
def demoTexBad : MLMesh :=
  ⟨200, 100, 0, 0, 10, true, true, false, 0, 0⟩

/-- A clean untextured mesh with 5000 faces. -/
def demoPlain : MLMesh :=
  ⟨3000, 5000, 0, 0, 0, false, false, false, 0, 0⟩

/-- A clean untextured mesh with 100 faces. -/
def demoSmall : MLMesh :=
  ⟨60, 100, 0, 0, 0, false, false, false, 0, 0⟩

/-- A clean untextured mesh with only 2 faces. -/
def demoTiny : MLMesh :=
  ⟨4, 2, 0, 0, 0, false, false, false, 0, 0⟩

/-- A clean untextured mesh with 7 faces. -/
def demoSeven : MLMesh :=
  ⟨9, 7, 0, 0, 0, false, false, false, 0, 0⟩

/-- A clean textured mesh with working texture indices. -/
def demoPlainTex : MLMesh :=
  ⟨60, 100, 0, 0, 0, true, false, false, 0, 0⟩

/-- A parameter set with the node's default values, target-faces mode. -/
def demoParams : Params :=
  ⟨SimplifyMethod.targetFaces, 1000, 3/4, 1/2, 1, true, 1, true, true, true, true⟩

/-- Truncation agrees with the floor on nonnegative rationals. -/
theorem pyInt_of_nonneg {q : ℚ} (h : 0 ≤ q) : pyInt q = Int.floor q := by
  simp [pyInt, not_lt.mpr h]

/-- Face count returned by the geometry-only driver: the possibly-cleaned
face count capped at the effective target. -/
theorem simplifyWithoutTexture_nfaces (m : MLMesh) (tf : Option Int)
    (pr : Option ℚ) (q bw : ℚ) (pb op pn ps pc : Bool) :
    (simplifyWithoutTexture m tf pr q pb bw op pn ps pc).1.nfaces =
      min (if pc then cleanMesh m else m).nfaces
        (targetfacenum tf pr (if pc then cleanMesh m else m).nfaces).toNat := rfl

/-- Face count returned by the textured driver when the texture filter
succeeds. -/
theorem simplifyWithTexture_nfaces_ok (m : MLMesh) (tf : Option Int)
    (pr : Option ℚ) (q tw bw : ℚ) (pb op pn ps pc : Bool)
    (hc : (if pc then cleanMesh m else m).texCorrupt = false) :
    (simplifyWithTexture m tf pr q tw pb bw op pn ps pc).1.nfaces =
      min (if pc then cleanMesh m else m).nfaces
        (targetfacenum tf pr (if pc then cleanMesh m else m).nfaces).toNat := by
  simp [simplifyWithTexture, decimationWithTexture, hc, decimation, edgeFlipPlanar]

/-- Face count returned by the textured driver when the texture filter
raises: the fallback runs on the un-cleaned input mesh with a target
recomputed from the un-cleaned face count. -/
theorem simplifyWithTexture_nfaces_fallback (m : MLMesh) (tf : Option Int)
    (pr : Option ℚ) (q tw bw : ℚ) (pb op pn ps pc : Bool)
    (hc : (if pc then cleanMesh m else m).texCorrupt = true) :
    (simplifyWithTexture m tf pr q tw pb bw op pn ps pc).1.nfaces =
      min m.nfaces (targetfacenum tf pr m.nfaces).toNat := by
  simp [simplifyWithTexture, decimationWithTexture, hc, simplifyWithoutTexture,
    decimation, edgeFlipPlanar]

/-! Claim theorems. -/

/-- C1 counterexample: the claimed output bounds fail as stated.  With a
requested target of 2 faces on a 100-face mesh the output has 4 faces,
exceeding the requested target; and with a 2-face input mesh and target 1000
the output has 2 faces, below the claimed hard floor of 4. -/
theorem c1_output_bounds_counterexample :
    (simplifyWithoutTexture demoSmall (some 2) none (1/2) true 1 true true true
      false).1.nfaces = 4 ∧
    ¬ ((simplifyWithoutTexture demoSmall (some 2) none (1/2) true 1 true true true
      false).1.nfaces ≤ 2) ∧
    (simplifyWithoutTexture demoTiny (some 1000) none (1/2) true 1 true true true
      false).1.nfaces = 2 ∧
    ¬ (4 ≤ (simplifyWithoutTexture demoTiny (some 1000) none (1/2) true 1 true true
      true false).1.nfaces) := by
  refine ⟨?_, ?_, ?_, ?_⟩ <;>
    norm_num [simplifyWithoutTexture, decimation, edgeFlipPlanar, targetfacenum,
      computedTarget, demoSmall, demoTiny]
  all_goals decide

/-- C1 amended: the effective target passed to the decimation filter equals
`max 4 (computed target)`, so it is at least 4, and the output face count is
at most that effective target (of the decimation run actually performed,
which in the texture fallback is recomputed from the un-cleaned face count);
the output face count need not be at most the requested target (when the
request is below 4) nor at least 4 (when the input has fewer faces). -/
theorem c1_effective_target_amended (m : MLMesh) (tf : Option Int)
    (pr : Option ℚ) (q tw bw : ℚ) (pb op pn ps pc : Bool) :
    4 ≤ targetfacenum tf pr (if pc then cleanMesh m else m).nfaces ∧
    FilterOp.decimateStandard
        (targetfacenum tf pr (if pc then cleanMesh m else m).nfaces) ∈
      (simplifyWithoutTexture m tf pr q pb bw op pn ps pc).2 ∧
    (simplifyWithoutTexture m tf pr q pb bw op pn ps pc).1.nfaces ≤
      (targetfacenum tf pr (if pc then cleanMesh m else m).nfaces).toNat ∧
    (simplifyWithTexture m tf pr q tw pb bw op pn ps pc).1.nfaces ≤
      max (targetfacenum tf pr (if pc then cleanMesh m else m).nfaces).toNat
          (targetfacenum tf pr m.nfaces).toNat := by
  refine ⟨le_max_left _ _, ?_, ?_, ?_⟩
  · simp [simplifyWithoutTexture, cleanOps]
  · rw [simplifyWithoutTexture_nfaces]
    exact min_le_right _ _
  · cases hc : (if pc then cleanMesh m else m).texCorrupt
    · rw [simplifyWithTexture_nfaces_ok m tf pr q tw bw pb op pn ps pc hc]
      exact le_trans (min_le_right _ _) (Nat.le_max_left _ _)
    · rw [simplifyWithTexture_nfaces_fallback m tf pr q tw bw pb op pn ps pc hc]
      exact le_trans (min_le_right _ _) (Nat.le_max_right _ _)

/-- C2: the texture-decimation failure at `demoTexBad` (corrupt texture
indices) triggers the fallback, but the fallback reloads the original input
file rather than reusing the cleaned in-memory state: with
`percentage_reduction = 1/2` and `pre_clean = True` the returned mesh has 50
faces with the 10 duplicate faces still present (target computed from the
un-cleaned 100 faces), whereas running the geometry-only variant on the
cleaned state would give 45 faces and no duplicates. -/
theorem c2_fallback_uncleaned_state :
    (simplifyWithTexture demoTexBad none (some (1/2)) (1/2) 1 true 1 true true
      true true).1.nfaces = 50 ∧
    (simplifyWithTexture demoTexBad none (some (1/2)) (1/2) 1 true 1 true true
      true true).1.dupFaces = 10 ∧
    FilterOp.decimateStandard 50 ∈
      (simplifyWithTexture demoTexBad none (some (1/2)) (1/2) 1 true 1 true true
        true true).2 ∧
    (simplifyWithoutTexture (cleanMesh demoTexBad) none (some (1/2)) (1/2) true 1
      true true true false).1.nfaces = 45 ∧
    (simplifyWithoutTexture (cleanMesh demoTexBad) none (some (1/2)) (1/2) true 1
      true true true false).1.dupFaces = 0 := by
  refine ⟨?_, ?_, ?_, ?_, ?_⟩ <;>
    norm_num [simplifyWithTexture, simplifyWithoutTexture, cleanMesh,
      mergeCloseVertices, removeUnreferencedVertices, removeDuplicateFaces,
      decimationWithTexture, decimation, edgeFlipPlanar, targetfacenum,
      computedTarget, pyInt, demoTexBad] <;> decide

/-- C3 counterexample: a reduction fraction of 3/2, outside the open interval
(0,1), is not rejected; the run performs decimation with the substituted
default target 1000 and returns a 1000-face mesh. -/
theorem c3_no_validation_counterexample :
    (simplifyWithoutTexture demoPlain none (some (3/2)) (1/2) true 1 true true
      true false).2 =
      [FilterOp.decimateStandard 1000, FilterOp.edgeFlipPlanar 2] ∧
    (simplifyWithoutTexture demoPlain none (some (3/2)) (1/2) true 1 true true
      true false).1.nfaces = 1000 := by
  constructor <;>
    norm_num [simplifyWithoutTexture, decimation, edgeFlipPlanar, targetfacenum,
      computedTarget, demoPlain]
  all_goals decide

/-- C3 amended: no parameter validation exists.  When the reduction fraction
is outside `[0,1]` and no target face count is set, the run silently
substitutes the default target 1000 and decimation proceeds; no error is
raised and the mesh is mutated. -/
theorem c3_out_of_range_default_amended (m : MLMesh) (r q bw : ℚ)
    (pb op pn ps pc : Bool) (h : ¬ (0 ≤ r ∧ r ≤ 1)) :
    (simplifyWithoutTexture m none (some r) q pb bw op pn ps pc).2 =
      (if pc then cleanOps else []) ++
        [FilterOp.decimateStandard 1000, FilterOp.edgeFlipPlanar 2] ∧
    (simplifyWithoutTexture m none (some r) q pb bw op pn ps pc).1.nfaces ≤
      1000 := by
  have ht : targetfacenum none (some r)
      (if pc then cleanMesh m else m).nfaces = 1000 := by
    simp [targetfacenum, computedTarget, h]
  constructor
  · simp [simplifyWithoutTexture, ht]
  · rw [simplifyWithoutTexture_nfaces, ht]
    exact le_trans (min_le_right _ _) (by decide)

/-- C3 witness: the amended behavior at the concrete out-of-range fraction
3/2 on `demoPlain`. -/
theorem c3_out_of_range_default_witness :
    (simplifyWithoutTexture demoPlain none (some (3/2)) (1/2) true 1 true true
      true true).2 =
      cleanOps ++ [FilterOp.decimateStandard 1000, FilterOp.edgeFlipPlanar 2] ∧
    (simplifyWithoutTexture demoPlain none (some (3/2)) (1/2) true 1 true true
      true true).1.nfaces ≤ 1000 := by
  have h := c3_out_of_range_default_amended demoPlain (3/2) (1/2) 1 true true
    true true true (by norm_num)
  simpa using h

/-- C4: selecting one target mode sets the other to absent, so exactly one of
the two options is honored, and when both are absent the target computation
yields the fixed default of 1000 faces (also after the hard floor). -/
theorem c4_exactly_one_mode (method : SimplifyMethod) (tf : Int) (pr : ℚ)
    (f : Nat) :
    ((setTargets method tf pr).1 = none ↔ ¬ (setTargets method tf pr).2 = none) ∧
    computedTarget none none f = 1000 ∧
    targetfacenum none none f = 1000 := by
  refine ⟨?_, rfl, by norm_num [targetfacenum, computedTarget]⟩
  cases method <;> simp [setTargets]

/-- C5: whenever the reduction fraction r lies in the library's accepted
range [0,1] and no target face count is set, the computed target equals the
floor (= Python `int()` truncation, the value being nonnegative) of
`current_faces * (1 - r)`, and in the driver with `pre_clean=True` the
decimation filter receives that value computed from the face count measured
after the cleanup pass, clamped only by the hard floor of 4. -/
theorem c5_truncation_after_cleanup (m : MLMesh) (r q bw : ℚ)
    (pb op pn ps : Bool) (h0 : 0 ≤ r) (h1 : r ≤ 1) :
    (∀ f : Nat, computedTarget none (some r) f = Int.floor ((f : ℚ) * (1 - r))) ∧
    (simplifyWithoutTexture m none (some r) q pb bw op pn ps true).2 =
      cleanOps ++
        [FilterOp.decimateStandard
          (max 4 (Int.floor (((cleanMesh m).nfaces : ℚ) * (1 - r)))),
         FilterOp.edgeFlipPlanar 2] := by
  have key : ∀ f : Nat,
      computedTarget none (some r) f = Int.floor ((f : ℚ) * (1 - r)) := by
    intro f
    have hnn : (0 : ℚ) ≤ (f : ℚ) * (1 - r) :=
      mul_nonneg (Nat.cast_nonneg f) (by linarith)
    simp [computedTarget, h0, h1, pyInt_of_nonneg hnn]
  refine ⟨key, ?_⟩
  simp [simplifyWithoutTexture, targetfacenum, key]

/-- C5 witness: with r = 1/2 on a cleaned face count of 7, the target is the
truncation 3 of 3.5 (rounding would give 4), computed after cleanup. -/
theorem c5_truncation_after_cleanup_witness :
    computedTarget none (some (1/2)) 7 = 3 ∧
    (simplifyWithoutTexture demoSeven none (some (1/2)) (1/2) true 1 true true
      true true).2 =
      cleanOps ++ [FilterOp.decimateStandard 4, FilterOp.edgeFlipPlanar 2] := by
  have h := c5_truncation_after_cleanup demoSeven (1/2) (1/2) 1 true true true
    true (by norm_num) (by norm_num)
  constructor
  · rw [h.1 7]
    norm_num
  · rw [h.2]
    norm_num [cleanMesh, mergeCloseVertices, removeUnreferencedVertices,
      removeDuplicateFaces, demoSeven]

/-- C6: the three cleanup filters run, in the order merge-close-vertices,
remove-unreferenced-vertices, remove-duplicate-faces, exactly when pre-clean
is requested, and the decimation target is computed afterwards, from the
cleaned face count; the same cleanup gating holds on the textured path. -/
theorem c6_cleanup_iff_preclean (m : MLMesh) (tf : Option Int) (pr : Option ℚ)
    (q tw bw : ℚ) (pb op pn ps pc : Bool) :
    (simplifyWithoutTexture m tf pr q pb bw op pn ps pc).2 =
      (if pc then
        [FilterOp.mergeCloseVertices, FilterOp.removeUnreferencedVertices,
         FilterOp.removeDuplicateFaces]
       else []) ++
      [FilterOp.decimateStandard
        (targetfacenum tf pr (if pc then cleanMesh m else m).nfaces),
       FilterOp.edgeFlipPlanar 2] ∧
    (∃ rest, (simplifyWithTexture m tf pr q tw pb bw op pn ps pc).2 =
      (if pc then
        [FilterOp.mergeCloseVertices, FilterOp.removeUnreferencedVertices,
         FilterOp.removeDuplicateFaces]
       else []) ++
      FilterOp.decimateWithTexture
        (targetfacenum tf pr (if pc then cleanMesh m else m).nfaces) :: rest) := by
  constructor
  · cases pc <;> rfl
  · cases hc : (if pc then cleanMesh m else m).texCorrupt
    · exact ⟨[FilterOp.edgeFlipPlanar 2], by
        simp [simplifyWithTexture, decimationWithTexture, hc, cleanOps]⟩
    · exact ⟨[FilterOp.decimateStandard (targetfacenum tf pr m.nfaces),
        FilterOp.edgeFlipPlanar 2], by
        simp [simplifyWithTexture, decimationWithTexture, hc, cleanOps,
          simplifyWithoutTexture]⟩

/-- C7: on both driver paths the trace ends with the planar edge-flip
post-pass invoked with exactly 2 iterations, after the decimation filter;
the edge-flip pass never changes the vertex count (nor the face count). -/
theorem c7_postpass_two_iterations (m : MLMesh) (tf : Option Int)
    (pr : Option ℚ) (q tw bw : ℚ) (pb op pn ps pc : Bool) :
    (∃ pre1, (simplifyWithoutTexture m tf pr q pb bw op pn ps pc).2 =
      pre1 ++ [FilterOp.edgeFlipPlanar 2]) ∧
    (∃ pre2, (simplifyWithTexture m tf pr q tw pb bw op pn ps pc).2 =
      pre2 ++ [FilterOp.edgeFlipPlanar 2]) ∧
    (∀ (m' : MLMesh) (k : Nat), (edgeFlipPlanar m' k).nverts = m'.nverts ∧
      (edgeFlipPlanar m' k).nfaces = m'.nfaces) := by
  refine ⟨?_, ?_, fun m' k => ⟨rfl, rfl⟩⟩
  · exact ⟨(if pc then cleanOps else []) ++
      [FilterOp.decimateStandard
        (targetfacenum tf pr (if pc then cleanMesh m else m).nfaces)], by
      simp [simplifyWithoutTexture, cleanOps]⟩
  · cases hc : (if pc then cleanMesh m else m).texCorrupt
    · exact ⟨(if pc then cleanOps else []) ++
        [FilterOp.decimateWithTexture
          (targetfacenum tf pr (if pc then cleanMesh m else m).nfaces)], by
        simp [simplifyWithTexture, decimationWithTexture, hc, cleanOps]⟩
    · exact ⟨(if pc then cleanOps else []) ++
        [FilterOp.decimateWithTexture
          (targetfacenum tf pr (if pc then cleanMesh m else m).nfaces),
         FilterOp.decimateStandard (targetfacenum tf pr m.nfaces)], by
        simp [simplifyWithTexture, decimationWithTexture, hc, cleanOps,
          simplifyWithoutTexture]⟩

/-- C8: after any run of `simplify_mesh` — the body returning normally or
raising, over any starting file system — neither temporary interchange file
remains: the `finally` block removes both. -/
theorem c8_temp_files_removed (mesh : MLMesh) (p : Params) (fs : List Nat)
    (inputObj outputObj t : Nat) :
    inputObj ∉ (simplifyMesh mesh p fs inputObj outputObj t).2 ∧
    outputObj ∉ (simplifyMesh mesh p fs inputObj outputObj t).2 := by
  simp [simplifyMesh, List.mem_filter]

/-- C9: the run's outcome is a function of the input mesh and the parameters
alone — it does not depend on the temporary file names drawn, the
preexisting file system, or the wall clock, so two runs with identical
inputs and parameters produce identical outputs. -/
theorem c9_determinism (mesh : MLMesh) (p : Params) (fs1 fs2 : List Nat)
    (in1 out1 in2 out2 t1 t2 : Nat) :
    (simplifyMesh mesh p fs1 in1 out1 t1).1 =
      (simplifyMesh mesh p fs2 in2 out2 t2).1 := rfl

/-- C10: on a mesh without texture coordinates the run dispatches to the
geometry-only path, which never receives the texture weight, so the outcome
is independent of that parameter. -/
theorem c10_texture_weight_independent (mesh : MLMesh) (p : Params)
    (tw1 tw2 : ℚ) (fs : List Nat) (inputObj outputObj t : Nat)
    (h : mesh.hasTex = false) :
    (simplifyMesh mesh { p with texture_weight := tw1 } fs inputObj outputObj
      t).1 =
    (simplifyMesh mesh { p with texture_weight := tw2 } fs inputObj outputObj
      t).1 := by
  simp [simplifyMesh, h]

/-- C10 witness: on the untextured `demoSmall` with the default parameters,
texture weights 0 and 2 give identical outcomes. -/
theorem c10_texture_weight_independent_witness :
    demoSmall.hasTex = false ∧
    (simplifyMesh demoSmall { demoParams with texture_weight := 0 } [] 0 1
      0).1 =
    (simplifyMesh demoSmall { demoParams with texture_weight := 2 } [] 0 1
      0).1 :=
  ⟨rfl, c10_texture_weight_independent demoSmall demoParams 0 2 [] 0 1 0 rfl⟩

/-- Sanity check that the texture weight is not vacuously absent from the
model: on a textured mesh the texture-aware filter's accumulated distortion
does depend on it. -/
theorem texture_weight_matters_on_textured :
    (simplifyWithTexture demoPlainTex (some 50) none (1/2) 1 true 1 true true
      true false).1.texDistortion ≠
    (simplifyWithTexture demoPlainTex (some 50) none (1/2) 2 true 1 true true
      true false).1.texDistortion := by
  norm_num [simplifyWithTexture, decimationWithTexture, decimation,
    edgeFlipPlanar, targetfacenum, computedTarget, demoPlainTex]

end MeshSimplifier
